import Mathlib

/-!
Verification of the betr_spreads persistence layer.

This file shallowly embeds the persistence-model code of the repository
(src/backend/models/base.py and src/backend/database/db_pgsql.py) and proves
or refutes the specified properties of that code.

Modelling conventions:
- Python strings are Lean String values; the ASCII character classes of the
  regular expression in the table-name derivation are modelled with
  Char.isLower, Char.isDigit and Char.isUpper, and str.lower with
  Char.toLower (they agree on ASCII, which is all the regex inspects).
- Timestamps are Nat (seconds); datetime.now() and time.time() read a clock
  value that is threaded explicitly.
- A SQLAlchemy session together with its database is a DBState: a list of
  committed rows plus the surrogate-key counter and the current clock.
- Fallible operations (SQL statements that can raise) return Option.
-/

namespace BetrSpreads

/-- Models the first character class of the regex pattern used by the
tablename derivation: the set written as a lowercase-letter-or-digit class
in base.py line 27 and line 75. -/
def matchesLowerDigit (c : Char) : Bool :=
  c.isLower || c.isDigit

/-- Models one left-to-right pass of re.sub with the two-character pattern
(lower-or-digit, upper) and a replacement inserting an underscore between
the two captured characters.  After a match both matched characters are
consumed, as re.sub resumes scanning after the match. -/
def insertUnderscores : List Char → List Char
  | c1 :: c2 :: rest =>
    if matchesLowerDigit c1 && c2.isUpper then
      c1 :: '_' :: c2 :: insertUnderscores rest
    else
      c1 :: insertUnderscores (c2 :: rest)
  | l => l

namespace Base

/-- Models Base.__tablename__ (base.py lines 25-27): re.sub of the
(lower-or-digit)(upper) pattern with an inserted underscore, then
str.lower() over the whole string, applied to the class name. -/
def tablename (clsName : String) : String :=
  String.mk ((insertUnderscores clsName.data).map Char.toLower)

end Base

namespace BasesqlModel

/-- Models BasesqlModel.__tablename__ (base.py lines 73-75); its body is the
same re.sub-then-lower expression as Base.__tablename__. -/
def tablename (clsName : String) : String :=
  String.mk ((insertUnderscores clsName.data).map Char.toLower)

end BasesqlModel

/-- A CamelCase class name: nonempty, starts with an ASCII uppercase letter,
and contains only ASCII letters and digits (Python identifiers used as model
class names). -/
def isCamelCase (s : String) : Bool :=
  match s.data with
  | [] => false
  | c :: _ => c.isUpper && s.data.all (fun d => d.isAlpha || d.isDigit)

/-- A Python attribute value as stored in a model field or a column. -/
inductive Value where
  | vint : Int → Value
  | vstr : String → Value
  | vbool : Bool → Value
  | vnull : Value
deriving DecidableEq

/-- An in-memory model instance of a BasesqlModel subclass: the surrogate
key (None before the row is persisted), the keyword-settable attributes,
and the audit fields declared in base.py lines 66-71. -/
structure Entity where
  id : Option Nat
  attrs : List (String × Value)
  created_at : Nat
  updated_at : Nat
  deleted_at : Option Nat
deriving DecidableEq

/-- Attribute access on an instance: the first binding of the name wins,
matching Python keyword-argument construction where names are unique. -/
def lookupAttr (e : Entity) (k : String) : Option Value :=
  (e.attrs.find? (fun p => p.1 = k)).map (fun p => p.2)

/-- Models the query filter of filter_by in get_or_create and get: the row
satisfies every keyword criterion by field-by-field equality. -/
def matchesCriteria (e : Entity) (criteria : List (String × Value)) : Bool :=
  criteria.all (fun p => lookupAttr e p.1 = some p.2)

/-- Models the session together with its backing table for one model class:
the committed rows, the next surrogate key the database will assign, and the
current clock (the value time.time() would return). -/
structure DBState where
  rows : List Entity
  nextId : Nat
  now : Nat
deriving DecidableEq

/-- Models constructing an instance from keyword arguments, cls(**kwargs):
id is None, created_at and updated_at both come from the default_factory
reading the clock at construction (base.py lines 66-69), deleted_at has no
default value. -/
def mkEntity (now : Nat) (criteria : List (String × Value)) : Entity :=
  { id := none
    attrs := criteria
    created_at := now
    updated_at := now
    deleted_at := none }

/-- Models session.add followed by session.commit for a transient instance:
the INSERT and the commit happen as one unit and the database assigns the
surrogate key. -/
def insertCommit (st : DBState) (e : Entity) : Entity × DBState :=
  let persisted := { e with id := some st.nextId }
  (persisted, { st with rows := st.rows ++ [persisted], nextId := st.nextId + 1 })

/-- Models the state of the model class object built when the class body of
BasesqlModel is executed: classLoadTime is the clock value at that moment,
at which the expression datetime.now() inside the Field(...) call for
deleted_at (base.py lines 70-71) is evaluated. -/
structure ModelClassDef where
  classLoadTime : Nat

/-- A SQLAlchemy onupdate column argument is either an already-evaluated
plain value, used verbatim on every UPDATE, or a callable invoked at
UPDATE time. -/
inductive OnUpdateHook where
  | constVal : Nat → OnUpdateHook
  | callable : (Nat → Nat) → OnUpdateHook

/-- The value an onupdate hook contributes to an UPDATE executed when the
clock reads t. -/
def evalOnUpdate : OnUpdateHook → Nat → Nat
  | OnUpdateHook.constVal v, _ => v
  | OnUpdateHook.callable f, t => f t

/-- Models the sa_column_kwargs onupdate argument of the deleted_at field:
the class body passes datetime.now() - a call, not a function reference -
so the hook holds the single datetime value computed at class-definition
time. -/
def deletedAtHook (cd : ModelClassDef) : OnUpdateHook :=
  OnUpdateHook.constVal cd.classLoadTime

/-- Models one SQL UPDATE of a persisted row: columns with an onupdate hook
receive the hook value; no other audit column is touched, because only
deleted_at declares a hook and nothing in save assigns updated_at. -/
def sqlUpdateRow (cd : ModelClassDef) (now : Nat) (e : Entity) : Entity :=
  { e with deleted_at := some (evalOnUpdate (deletedAtHook cd) now) }

namespace BasesqlModel

/-- Models BasesqlModel.get_or_create (base.py lines 100-110): query the
first row matching the keyword criteria; when none matches, construct an
instance from the criteria, add and commit it, and report created=True. -/
def get_or_create (st : DBState) (criteria : List (String × Value)) :
    (Entity × Bool) × DBState :=
  match st.rows.find? (fun e => matchesCriteria e criteria) with
  | some inst => ((inst, false), st)
  | none =>
    let r := insertCommit st (mkEntity st.now criteria)
    ((r.1, true), r.2)

/-- Models BasesqlModel.get (base.py lines 118-121). -/
def get (st : DBState) (criteria : List (String × Value)) : Option Entity :=
  st.rows.find? (fun e => matchesCriteria e criteria)

/-- Models BasesqlModel.save (base.py lines 112-116): session.add then
session.commit.  A transient instance (id is None) is inserted with its
construction-time field values; a persisted instance is written back with
one UPDATE, which fires the onupdate hooks. -/
def save (cd : ModelClassDef) (st : DBState) (e : Entity) : Entity × DBState :=
  match e.id with
  | none => insertCommit st e
  | some i =>
    let updated := sqlUpdateRow cd st.now e
    (updated, { st with rows := st.rows.map (fun r => if r.id = some i then updated else r) })

end BasesqlModel

/-- A column declaration as passed to db_pgsql.create_table. -/
structure ColumnSpec where
  colName : String
  typeName : String
  primary_key : Bool
  nullable : Bool
deriving DecidableEq

/-- A table live in the database: its name, its declared columns, and its
rows. -/
structure PgTable where
  name : String
  columns : List ColumnSpec
  tableRows : List (List Value)
deriving DecidableEq

/-- The database reachable through one SQLAlchemy engine: the named tables
of its schema. -/
structure Engine where
  tables : List PgTable
deriving DecidableEq

namespace DbPgsql

/-- Models db_pgsql.create_table (db_pgsql.py lines 30-37): builds the table
object and runs metadata.create_all, which creates the table only when it
is absent and creates it empty. -/
def create_table (eng : Engine) (tname : String) (cols : List ColumnSpec) : Engine :=
  if eng.tables.any (fun t => t.name = tname) then eng
  else { tables := eng.tables ++ [{ name := tname, columns := cols, tableRows := [] }] }

/-- Models db_pgsql.drop_table (db_pgsql.py lines 40-44): DROP TABLE, which
raises when the table is absent (modelled as none). -/
def drop_table (eng : Engine) (tname : String) : Option Engine :=
  if eng.tables.any (fun t => t.name = tname) then
    some { tables := eng.tables.filter (fun t => ¬ t.name = tname) }
  else none

/-- Models db_pgsql.get_table_data (db_pgsql.py lines 53-57): SELECT * FROM
the named table and fetch all rows; raises (none) when the table is
absent. -/
def get_table_data (eng : Engine) (tname : String) : Option (List (List Value)) :=
  (eng.tables.find? (fun t => t.name = tname)).map (fun t => t.tableRows)

/-- Models db_pgsql.validate_table_exists (db_pgsql.py lines 60-64): runs
the same SELECT * and returns bool(result.fetchall()), the truthiness of
the fetched row list. -/
def validate_table_exists (eng : Engine) (tname : String) : Option Bool :=
  (get_table_data eng tname).map (fun rs => !rs.isEmpty)

end DbPgsql

/-- Models pandas read_sql_table: loads the full named table from the
database into a tabular value; raises (none) when the table is absent. -/
def read_sql_table (tname : String) (eng : Engine) : Option (List (List Value)) :=
  (eng.tables.find? (fun t => t.name = tname)).map (fun t => t.tableRows)

namespace BasesqlModel

/-- Models engine.dialect.has_table, the schema-inspection capability of the
engine: membership of the name in the schema, independent of row data. -/
def has_table (eng : Engine) (tname : String) : Bool :=
  eng.tables.any (fun t => t.name = tname)

/-- Models BasesqlModel.validate_table_exists (base.py lines 123-126):
delegates to engine.dialect.has_table. -/
def validate_table_exists (eng : Engine) (tname : String) : Bool :=
  has_table eng tname

/-- Models BasesqlModel.get_table (base.py lines 128-131):
pd.read_sql_table(table_name, engine). -/
def get_table (eng : Engine) (tname : String) : Option (List (List Value)) :=
  read_sql_table tname eng

/-- Models BasesqlModel.get_table_data (base.py lines 146-149):
pd.read_sql_table(table_name, engine), the same call as get_table. -/
def get_table_data (eng : Engine) (tname : String) : Option (List (List Value)) :=
  read_sql_table tname eng

end BasesqlModel

/-- Outcome of running a Python call: a returned value, or an exception
that propagates out of the call uncaught. -/
inductive PyResult (α : Type) where
  | ok : α → PyResult α
  | raised : String → PyResult α
deriving DecidableEq

/-- What validate_data hands back when its try block completes: either the
validated payload or the caught exception returned as a value after being
logged. -/
inductive ValidateOutcome where
  | validated : List Entity → ValidateOutcome
  | errValue : String → ValidateOutcome
deriving DecidableEq

/-- Models pydantic v2 model-class creation, which base.py relies on through
pydantic_settings and model_validate: a class body declaring an annotated
field named __root__ is rejected at class-definition time with a TypeError,
because v2 removed the v1 custom-root-field mechanism in favour of
RootModel. -/
def defineModelClass (fieldNames : List String) : PyResult Unit :=
  if fieldNames.contains "__root__" then
    PyResult.raised "TypeError: to define root models, use pydantic.RootModel"
  else PyResult.ok ()

/-- Models converting one record dict into an instance of the model class:
every required field must be present with the right shape, otherwise a
ValidationError message naming the record position is produced.  This is
the conversion the try block of validate_data would perform. -/
def rowToEntity (idx : Nat) (row : List (String × Value)) : Except String Entity :=
  match row.find? (fun p => p.1 = "created_at") with
  | some (_, Value.vint c) =>
    match row.find? (fun p => p.1 = "updated_at") with
    | some (_, Value.vint u) =>
      Except.ok
        { id := none
          attrs := row.filter (fun p => p.1 ≠ "created_at" ∧ p.1 ≠ "updated_at")
          created_at := c.toNat
          updated_at := u.toNat
          deleted_at := none }
    | _ => Except.error ("ValidationError at record " ++ toString idx ++ ": updated_at")
  | _ => Except.error ("ValidationError at record " ++ toString idx ++ ": created_at")

/-- Conversion of all records, aborting at the first invalid one. -/
def rowsToEntities (idx : Nat) : List (List (String × Value)) → Except String (List Entity)
  | [] => Except.ok []
  | row :: rest =>
    match rowToEntity idx row with
    | Except.error msg => Except.error msg
    | Except.ok e =>
      match rowsToEntities (idx + 1) rest with
      | Except.error msg => Except.error msg
      | Except.ok es => Except.ok (e :: es)

/-- Models BasesqlModel.validate_data (base.py lines 133-144) on a tabular
input given as its list of record dicts.  The method first executes the
class body of DataValidationModel, whose only field is the annotation named
__root__ - this statement stands before the try block, so an exception it
raises is not caught.  Only if class creation succeeded would the try block
convert the records and return a caught failure as a value. -/
def validate_data (df : List (List (String × Value))) : PyResult ValidateOutcome :=
  match defineModelClass ["__root__"] with
  | PyResult.raised msg => PyResult.raised msg
  | PyResult.ok _ =>
    match rowsToEntities 0 df with
    | Except.ok es => PyResult.ok (ValidateOutcome.validated es)
    | Except.error msg => PyResult.ok (ValidateOutcome.errValue msg)

/-- A concrete persisted entity: id assigned, created_at and updated_at both
set to 10 by the construction-time default_factory, not yet soft-deleted. -/
def persistedEnt : Entity :=
  { id := some 1, attrs := [], created_at := 10, updated_at := 10, deleted_at := none }

/-- The entity persistedEnt after save runs on it at clock 100 against a
model class whose body was executed at clock 50. -/
def savedEnt : Entity :=
  (BasesqlModel.save { classLoadTime := 50 }
    { rows := [persistedEnt], nextId := 2, now := 100 } persistedEnt).1

end BetrSpreads

namespace BetrSpreads

theorem char_toNat_ofNat_of_lt {n : Nat} (h : n < 0xd800) : (Char.ofNat n).toNat = n := by
  unfold Char.ofNat
  rw [dif_pos (Or.inl h)]
  simp [Char.ofNatAux, Char.toNat, UInt32.toNat]

theorem char_isUpper_iff (c : Char) : c.isUpper = true ↔ 65 ≤ c.toNat ∧ c.toNat ≤ 90 := by
  simp only [Char.isUpper, Char.toNat, Bool.and_eq_true, decide_eq_true_eq, ge_iff_le,
    UInt32.le_def, BitVec.le_def]
  constructor
  · rintro ⟨h1, h2⟩; exact ⟨h1, h2⟩
  · rintro ⟨h1, h2⟩; exact ⟨h1, h2⟩

theorem toLower_isUpper_false (c : Char) : (Char.toLower c).isUpper = false := by
  unfold Char.toLower
  by_cases h : c.toNat ≥ 65 ∧ c.toNat ≤ 90
  · rw [if_pos h]
    have hv : (Char.ofNat (c.toNat + 32)).toNat = c.toNat + 32 :=
      char_toNat_ofNat_of_lt (by omega)
    rw [Bool.eq_false_iff]
    intro hu
    rw [char_isUpper_iff] at hu
    omega
  · rw [if_neg h]
    rw [Bool.eq_false_iff]
    intro hu
    rw [char_isUpper_iff] at hu
    exact h ⟨hu.1, hu.2⟩

theorem toLower_eq_self_of_not_upper {c : Char} (h : c.isUpper = false) : c.toLower = c := by
  unfold Char.toLower
  rw [if_neg]
  intro hc
  rw [Bool.eq_false_iff] at h
  exact h (char_isUpper_iff c |>.mpr ⟨hc.1, hc.2⟩)

theorem toNat_toLower_of_upper {c : Char} (h : c.isUpper = true) :
    (Char.toLower c).toNat = c.toNat + 32 := by
  rw [char_isUpper_iff] at h
  unfold Char.toLower
  rw [if_pos ⟨h.1, h.2⟩]
  exact char_toNat_ofNat_of_lt (by omega)

theorem toLower_ne_underscore {c : Char} (h : c.isUpper = true) : c.toLower ≠ '_' := by
  intro he
  have hn := toNat_toLower_of_upper h
  rw [he] at hn
  rw [char_isUpper_iff] at h
  rw [show Char.toNat '_' = 95 from rfl] at hn
  omega

/-- The regex pass never touches the first character: whatever branch is
taken, the head of the output is the head of the input. -/
theorem insertUnderscores_head (c : Char) (rest : List Char) :
    ∃ t, insertUnderscores (c :: rest) = c :: t := by
  match rest with
  | [] => exact ⟨[], rfl⟩
  | c2 :: rest2 =>
    unfold insertUnderscores
    by_cases h : (matchesLowerDigit c && c2.isUpper) = true
    · rw [if_pos h]; exact ⟨_, rfl⟩
    · rw [if_neg h]; exact ⟨_, rfl⟩

/-- On a list with no ASCII uppercase character the regex pattern never
matches, so the substitution pass is the identity. -/
theorem insertUnderscores_eq_self_of_no_upper (l : List Char)
    (h : ∀ c ∈ l, c.isUpper = false) : insertUnderscores l = l := by
  match l with
  | [] => rfl
  | [c] => rfl
  | c1 :: c2 :: rest =>
    unfold insertUnderscores
    have h2 : c2.isUpper = false := h c2 (by simp)
    rw [if_neg (by simp [h2])]
    have ih := insertUnderscores_eq_self_of_no_upper (c2 :: rest)
      (fun c hc => h c (List.mem_cons_of_mem c1 hc))
    rw [ih]

/-- Lower-casing is idempotent characterwise. -/
theorem toLower_toLower (c : Char) : c.toLower.toLower = c.toLower :=
  toLower_eq_self_of_not_upper (toLower_isUpper_false c)

theorem map_toLower_eq_self_of_no_upper (l : List Char)
    (h : ∀ c ∈ l, c.isUpper = false) : l.map Char.toLower = l := by
  induction l with
  | nil => rfl
  | cons c rest ih =>
    simp only [List.map_cons, List.cons.injEq]
    exact ⟨toLower_eq_self_of_not_upper (h c (by simp)),
      ih (fun d hd => h d (List.mem_cons_of_mem c hd))⟩

/-- C3: the table-name derivation is the pure function inserting an
underscore between each lowercase-or-digit character and a following
uppercase character and then lowercasing; it maps UserProfile, Order and
OrderItem to user_profile, order and order_item, and on every CamelCase
input the output has no leading underscore. -/
theorem Base_tablename_spec :
    Base.tablename "UserProfile" = "user_profile" ∧
    Base.tablename "Order" = "order" ∧
    Base.tablename "OrderItem" = "order_item" ∧
    ∀ s : String, isCamelCase s = true → (Base.tablename s).data.head? ≠ some '_' := by
  refine ⟨by decide, by decide, by decide, ?_⟩
  intro s hs
  unfold isCamelCase at hs
  match hdata : s.data with
  | [] => rw [hdata] at hs; exact absurd hs (by simp)
  | c :: rest =>
    rw [hdata] at hs
    have hup : c.isUpper = true := by
      simp only [Bool.and_eq_true] at hs
      exact hs.1
    obtain ⟨t, hins⟩ := insertUnderscores_head c rest
    unfold Base.tablename
    rw [hdata, hins]
    simp only [List.map_cons, String.data]
    intro hcon
    have hc : c.toLower = '_' := by
      simpa using hcon
    exact toLower_ne_underscore hup hc

/-- C3 witness: the universally quantified part of the statement applied at
the concrete CamelCase input OrderItem. -/
theorem Base_tablename_spec_witness :
    isCamelCase "OrderItem" = true ∧ (Base.tablename "OrderItem").data.head? ≠ some '_' :=
  ⟨by decide, Base_tablename_spec.2.2.2 "OrderItem" (by decide)⟩

/-- C4: the table-name derivation of BasesqlModel is idempotent: applying
it twice yields the same result as applying it once, for every input
string. -/
theorem BasesqlModel_tablename_idempotent (s : String) :
    BasesqlModel.tablename (BasesqlModel.tablename s) = BasesqlModel.tablename s := by
  unfold BasesqlModel.tablename
  have hnoup : ∀ c ∈ (insertUnderscores s.data).map Char.toLower, c.isUpper = false := by
    intro c hc
    obtain ⟨d, _, hd⟩ := List.mem_map.mp hc
    rw [← hd]
    exact toLower_isUpper_false d
  have hdata : (String.mk ((insertUnderscores s.data).map Char.toLower)).data
      = (insertUnderscores s.data).map Char.toLower := rfl
  rw [hdata, insertUnderscores_eq_self_of_no_upper _ hnoup,
    map_toLower_eq_self_of_no_upper _ hnoup]

theorem find?_eq_head_filter (p : Entity → Bool) (l : List Entity) :
    l.find? p = (l.filter p).head? := by
  induction l with
  | nil => rfl
  | cons a l ih =>
    cases h : p a
    · rw [List.find?_cons_of_neg _ (by simp [h]), List.filter_cons, if_neg (by simp [h]), ih]
    · rw [List.find?_cons_of_pos _ h, List.filter_cons, if_pos h]
      rfl

theorem find?_assoc_of_nodup {l : List (String × Value)} {p : String × Value}
    (hmem : p ∈ l) (hnodup : (l.map Prod.fst).Nodup) :
    l.find? (fun q => q.1 = p.1) = some p := by
  induction l with
  | nil => exact absurd hmem (List.not_mem_nil p)
  | cons q rest ih =>
    rcases List.mem_cons.mp hmem with heq | htail
    · subst heq
      exact List.find?_cons_of_pos rest (by simp)
    · have hne : ¬ (q.1 = p.1) := by
        intro hq
        have hp1 : p.1 ∈ rest.map Prod.fst := List.mem_map_of_mem Prod.fst htail
        rw [List.map_cons, List.nodup_cons] at hnodup
        exact hnodup.1 (hq ▸ hp1)
      rw [List.find?_cons_of_neg rest (by simpa using hne)]
      exact ih htail ((List.map_cons Prod.fst q rest ▸ hnodup).of_cons)

theorem matchesCriteria_of_attrs_eq {e : Entity} {criteria : List (String × Value)}
    (hattrs : e.attrs = criteria) (hkeys : (criteria.map Prod.fst).Nodup) :
    matchesCriteria e criteria = true := by
  unfold matchesCriteria lookupAttr
  rw [List.all_eq_true]
  intro p hp
  rw [hattrs, find?_assoc_of_nodup hp hkeys]
  simp

/-- C1: when some committed row matches the criteria field by field, the
first such row is returned unmodified with created=False and the state is
untouched; when no row matches, an entity constructed from the criteria is
inserted and committed as one unit, receives the next surrogate key, and is
returned with created=True. -/
theorem get_or_create_spec (st : DBState) (criteria : List (String × Value)) :
    (∀ m, (st.rows.filter (fun e => matchesCriteria e criteria)).head? = some m →
      BasesqlModel.get_or_create st criteria = ((m, false), st)) ∧
    ((∀ e ∈ st.rows, matchesCriteria e criteria = false) →
      BasesqlModel.get_or_create st criteria =
        (({ mkEntity st.now criteria with id := some st.nextId }, true),
         { rows := st.rows ++ [{ mkEntity st.now criteria with id := some st.nextId }],
           nextId := st.nextId + 1, now := st.now })) := by
  constructor
  · intro m hm
    have hf : st.rows.find? (fun e => matchesCriteria e criteria) = some m := by
      rw [find?_eq_head_filter]
      exact hm
    unfold BasesqlModel.get_or_create
    rw [hf]
  · intro h
    have hf : st.rows.find? (fun e => matchesCriteria e criteria) = none :=
      List.find?_eq_none.mpr (fun e he => by simp [h e he])
    unfold BasesqlModel.get_or_create
    rw [hf]
    rfl

/-- C1 witness: both branches of the contract applied at concrete session
states, one where a row matches the criteria and one where none does. -/
theorem get_or_create_spec_witness :
    BasesqlModel.get_or_create
        { rows := [{ id := some 1, attrs := [("name", Value.vstr "x")],
                     created_at := 5, updated_at := 5, deleted_at := none }],
          nextId := 2, now := 9 } [("name", Value.vstr "x")]
      = (({ id := some 1, attrs := [("name", Value.vstr "x")],
            created_at := 5, updated_at := 5, deleted_at := none }, false),
         { rows := [{ id := some 1, attrs := [("name", Value.vstr "x")],
                      created_at := 5, updated_at := 5, deleted_at := none }],
           nextId := 2, now := 9 }) ∧
    BasesqlModel.get_or_create { rows := [], nextId := 0, now := 7 } [("name", Value.vstr "y")]
      = (({ id := some 0, attrs := [("name", Value.vstr "y")],
            created_at := 7, updated_at := 7, deleted_at := none }, true),
         { rows := [{ id := some 0, attrs := [("name", Value.vstr "y")],
                      created_at := 7, updated_at := 7, deleted_at := none }],
           nextId := 1, now := 7 }) :=
  ⟨(get_or_create_spec
      { rows := [{ id := some 1, attrs := [("name", Value.vstr "x")],
                   created_at := 5, updated_at := 5, deleted_at := none }],
        nextId := 2, now := 9 } [("name", Value.vstr "x")]).1 _ (by decide),
   (get_or_create_spec { rows := [], nextId := 0, now := 7 } [("name", Value.vstr "y")]).2
      (by decide)⟩

/-- C7: starting from a state with no row matching the criteria, two
sequential get_or_create calls with identical criteria whose keyword names
are distinct report created=True then created=False and return entities
with equal surrogate keys. -/
theorem get_or_create_twice (st : DBState) (criteria : List (String × Value))
    (hnone : ∀ e ∈ st.rows, matchesCriteria e criteria = false)
    (hkeys : (criteria.map Prod.fst).Nodup) :
    (BasesqlModel.get_or_create st criteria).1.2 = true ∧
    (BasesqlModel.get_or_create (BasesqlModel.get_or_create st criteria).2 criteria).1.2
      = false ∧
    (BasesqlModel.get_or_create st criteria).1.1.id =
      (BasesqlModel.get_or_create
        (BasesqlModel.get_or_create st criteria).2 criteria).1.1.id := by
  have hf : st.rows.find? (fun e => matchesCriteria e criteria) = none :=
    List.find?_eq_none.mpr (fun e he => by simp [hnone e he])
  have h1 : BasesqlModel.get_or_create st criteria =
      (({ mkEntity st.now criteria with id := some st.nextId }, true),
       { st with rows := st.rows ++ [{ mkEntity st.now criteria with id := some st.nextId }], nextId := st.nextId + 1 }) := by
    unfold BasesqlModel.get_or_create
    rw [hf]
    rfl
  have hmatch : matchesCriteria
      { mkEntity st.now criteria with id := some st.nextId } criteria = true :=
    matchesCriteria_of_attrs_eq rfl hkeys
  have hf2 : (st.rows ++ [{ mkEntity st.now criteria with id := some st.nextId }]).find?
      (fun e => matchesCriteria e criteria)
      = some { mkEntity st.now criteria with id := some st.nextId } := by
    rw [List.find?_append, hf, Option.none_or]
    exact List.find?_cons_of_pos _ hmatch
  have h2 : BasesqlModel.get_or_create
      { st with rows := st.rows ++ [{ mkEntity st.now criteria with id := some st.nextId }], nextId := st.nextId + 1 } criteria
      = (({ mkEntity st.now criteria with id := some st.nextId }, false),
         { st with rows := st.rows ++ [{ mkEntity st.now criteria with id := some st.nextId }], nextId := st.nextId + 1 }) := by
    unfold BasesqlModel.get_or_create
    rw [show ({ st with rows := st.rows ++ [{ mkEntity st.now criteria with id := some st.nextId }], nextId := st.nextId + 1 } : DBState).rows
      = st.rows ++ [{ mkEntity st.now criteria with id := some st.nextId }] from rfl, hf2]
  simp only [h1, h2]
  exact ⟨trivial, trivial, trivial⟩

/-- C7 witness: the double-call property at the empty initial state with
the concrete criteria name=x. -/
theorem get_or_create_twice_witness :
    (BasesqlModel.get_or_create { rows := [], nextId := 0, now := 7 }
        [("name", Value.vstr "x")]).1.2 = true ∧
    (BasesqlModel.get_or_create
        (BasesqlModel.get_or_create { rows := [], nextId := 0, now := 7 }
          [("name", Value.vstr "x")]).2 [("name", Value.vstr "x")]).1.2 = false ∧
    (BasesqlModel.get_or_create { rows := [], nextId := 0, now := 7 }
        [("name", Value.vstr "x")]).1.1.id =
      (BasesqlModel.get_or_create
        (BasesqlModel.get_or_create { rows := [], nextId := 0, now := 7 }
          [("name", Value.vstr "x")]).2 [("name", Value.vstr "x")]).1.1.id :=
  get_or_create_twice { rows := [], nextId := 0, now := 7 } [("name", Value.vstr "x")]
    (by decide) (by decide)

/-- C2: at the concrete persisted entity persistedEnt (id assigned,
created_at = updated_at = 10), save executed at clock 100 leaves updated_at
at 10 - not refreshed, hence not strictly later than created_at - while the
UPDATE stamps deleted_at with the fixed class-definition-time value 50; the
surrogate key is preserved.  This refutes the refresh clause of the claim
on the code. -/
theorem save_update_divergence :
    savedEnt.updated_at = 10 ∧
    savedEnt.created_at = 10 ∧
    ¬ savedEnt.created_at < savedEnt.updated_at ∧
    savedEnt.deleted_at = some 50 ∧
    savedEnt.id = some 1 := by
  refine ⟨rfl, rfl, ?_, rfl, rfl⟩
  decide

/-- C9: a SQL UPDATE of a persisted row always writes the deleted_at
column, and the value written is the single clock value captured when the
model class body was executed - independent of the update time and of the
row - because the onupdate argument was the already-evaluated result of
calling datetime.now in the class body.  In particular save on any
persisted entity marks it soft-deleted. -/
theorem update_sets_deleted_at_to_classload (cd : ModelClassDef) (t1 t2 : Nat)
    (e1 e2 : Entity) (st : DBState) (i : Nat) (h : e1.id = some i) :
    (sqlUpdateRow cd t1 e1).deleted_at = some cd.classLoadTime ∧
    (sqlUpdateRow cd t1 e1).deleted_at = (sqlUpdateRow cd t2 e2).deleted_at ∧
    (BasesqlModel.save cd st e1).1.deleted_at = some cd.classLoadTime := by
  refine ⟨rfl, rfl, ?_⟩
  unfold BasesqlModel.save
  rw [h]
  rfl

/-- C9 witness: the statement at a concrete class definition, clocks, rows
and states. -/
theorem update_sets_deleted_at_to_classload_witness :
    (sqlUpdateRow { classLoadTime := 50 } 100 persistedEnt).deleted_at = some 50 ∧
    (sqlUpdateRow { classLoadTime := 50 } 100 persistedEnt).deleted_at
      = (sqlUpdateRow { classLoadTime := 50 } 200 savedEnt).deleted_at ∧
    (BasesqlModel.save { classLoadTime := 50 }
      { rows := [persistedEnt], nextId := 2, now := 100 } persistedEnt).1.deleted_at
      = some 50 :=
  update_sets_deleted_at_to_classload { classLoadTime := 50 } 100 200 persistedEnt savedEnt
    { rows := [persistedEnt], nextId := 2, now := 100 } 1 (by decide)

theorem pgFind?_append_of_none {p : PgTable → Bool} {l1 l2 : List PgTable}
    (h : l1.find? p = none) : (l1 ++ l2).find? p = l2.find? p := by
  rw [List.find?_append, h, Option.none_or]

/-- C5: the Persistence Model existence check answers schema membership,
independent of row data: it is true exactly when the engine's schema holds
a table of that name, it is true immediately after create_table on that
name - and the freshly created table is empty - and it is false on the
state produced by a successful drop_table of that name. -/
theorem model_validate_table_exists_spec (eng : Engine) (tname : String)
    (cols : List ColumnSpec) :
    (BasesqlModel.validate_table_exists eng tname = true ↔
      ∃ t ∈ eng.tables, t.name = tname) ∧
    BasesqlModel.validate_table_exists (DbPgsql.create_table eng tname cols) tname = true ∧
    (eng.tables.all (fun t => t.name ≠ tname) →
      DbPgsql.get_table_data (DbPgsql.create_table eng tname cols) tname = some []) ∧
    (∀ e2, DbPgsql.drop_table eng tname = some e2 →
      BasesqlModel.validate_table_exists e2 tname = false) := by
  refine ⟨?_, ?_, ?_, ?_⟩
  · unfold BasesqlModel.validate_table_exists BasesqlModel.has_table
    simp [List.any_eq_true]
  · unfold DbPgsql.create_table
    by_cases h : eng.tables.any (fun t => t.name = tname) = true
    · rw [if_pos h]
      unfold BasesqlModel.validate_table_exists BasesqlModel.has_table
      exact h
    · rw [if_neg h]
      unfold BasesqlModel.validate_table_exists BasesqlModel.has_table
      simp
  · intro habsent
    have hnone : eng.tables.any (fun t => t.name = tname) = false := by
      rw [List.all_eq_true] at habsent
      rw [List.any_eq_false]
      intro t ht
      simpa using habsent t ht
    unfold DbPgsql.create_table
    rw [if_neg (by simp [hnone])]
    unfold DbPgsql.get_table_data
    rw [pgFind?_append_of_none (List.find?_eq_none.mpr (fun t ht => by
      have := List.any_eq_false.mp hnone t ht
      simpa using this))]
    simp
  · intro e2 hdrop
    unfold DbPgsql.drop_table at hdrop
    by_cases h : eng.tables.any (fun t => t.name = tname) = true
    · rw [if_pos h] at hdrop
      cases hdrop
      unfold BasesqlModel.validate_table_exists BasesqlModel.has_table
      rw [List.any_eq_false]
      intro t ht
      have hmem := List.mem_filter.mp ht
      simpa using hmem.2
    · rw [if_neg h] at hdrop
      exact absurd hdrop (by simp)

/-- C5 witness: at concrete engines, the check is true directly after
creating the widget table, the created table is empty, and the check is
false on the engine produced by a successful drop of the widget table. -/
theorem model_validate_table_exists_spec_witness :
    BasesqlModel.validate_table_exists
      (DbPgsql.create_table { tables := [] } "widget" []) "widget" = true ∧
    DbPgsql.get_table_data (DbPgsql.create_table { tables := [] } "widget" []) "widget"
      = some [] ∧
    DbPgsql.drop_table
      { tables := [{ name := "widget", columns := [], tableRows := [] }] } "widget"
      = some { tables := [] } ∧
    BasesqlModel.validate_table_exists { tables := [] } "widget" = false :=
  ⟨(model_validate_table_exists_spec { tables := [] } "widget" []).2.1,
   (model_validate_table_exists_spec { tables := [] } "widget" []).2.2.1 (by decide),
   by decide,
   (model_validate_table_exists_spec
      { tables := [{ name := "widget", columns := [], tableRows := [] }] } "widget"
      []).2.2.2 { tables := [] } (by decide)⟩

/-- C6: for an engine state in which the SELECT of the gateway existence
check succeeds and fetches the row list rs, the check answers true exactly
when rs is nonempty, i.e. exactly when the bulk read returns at least one
row. -/
theorem gateway_validate_iff_rows (eng : Engine) (tname : String)
    (rs : List (List Value)) (h : DbPgsql.get_table_data eng tname = some rs) :
    DbPgsql.validate_table_exists eng tname = some true ↔ rs ≠ [] := by
  unfold DbPgsql.validate_table_exists
  rw [h]
  simp [Option.map]

/-- C6 witness: at a concrete engine whose widget table holds one row, the
bulk read fetches that row and the equivalence yields a true check. -/
theorem gateway_validate_iff_rows_witness :
    DbPgsql.get_table_data
      { tables := [{ name := "widget", columns := [], tableRows := [[Value.vint 1]] }] }
      "widget" = some [[Value.vint 1]] ∧
    DbPgsql.validate_table_exists
      { tables := [{ name := "widget", columns := [], tableRows := [[Value.vint 1]] }] }
      "widget" = some true :=
  ⟨by decide,
   (gateway_validate_iff_rows
      { tables := [{ name := "widget", columns := [], tableRows := [[Value.vint 1]] }] }
      "widget" [[Value.vint 1]] (by decide)).mpr (by decide)⟩

/-- C10: BasesqlModel.get_table and BasesqlModel.get_table_data perform the
same read_sql_table bulk read and return the same tabular result on every
engine and table name. -/
theorem get_table_eq_get_table_data (eng : Engine) (tname : String) :
    BasesqlModel.get_table eng tname = BasesqlModel.get_table_data eng tname := rfl

/-- C8: validate_data never reaches its try block: executing the class body
of its inner DataValidationModel, which declares the annotated field named
__root__, raises a TypeError under pydantic v2 (the library base.py is
written against, as its SettingsConfigDict and model_validate require),
and that statement stands before the try, so the exception escapes the
method uncaught for every tabular input - no rows are converted and no
error value is returned. -/
theorem validate_data_raises (df : List (List (String × Value))) :
    validate_data df
      = PyResult.raised "TypeError: to define root models, use pydantic.RootModel" := rfl

end BetrSpreads
